import Mathlib

/-!
Verification of the fab-card-db MCP adapter (src/src/index.ts) against its
specification.  The TypeScript source is shallowly embedded: each cheerio
selector read is modelled as a field of an abstract document record holding
the text that the selector would return, and the JavaScript string
operations used by the source (`||` on strings, `trim`, `split`,
`replace(/[^0-9]/g,'')`, `match(/^([A-Z]{2})_/)`, `encodeURIComponent`)
are given as explicit Lean functions on strings.
-/

namespace FabCardDb

/-- JavaScript `a || b` specialised to strings: a string is falsy exactly
when it is empty. -/
def jsOr (a b : String) : String :=
  if a = "" then b else a

/-- JavaScript whitespace test for the characters `String.prototype.trim`
removes (ASCII subset actually occurring in the scraped pages). -/
def isJsSpace (c : Char) : Bool :=
  c = ' ' || c = '\t' || c = '\n' || c = '\r' || c = '\x0b' || c = '\x0c'

/-- JavaScript `s.trim()`: drop leading and trailing whitespace. -/
def jsTrim (s : String) : String :=
  String.mk (((s.data.dropWhile isJsSpace).reverse.dropWhile isJsSpace).reverse)

/-- JavaScript `s.replace(/[^0-9]/g, '')`: keep only ASCII digits. -/
def stripNonDigits (s : String) : String :=
  String.mk (s.data.filter Char.isDigit)

/-- JavaScript `s.split(sep)` for a one-character separator, on char
lists: split at every occurrence of `sep`; the empty list yields one
empty piece, like `"".split(sep)` yielding `[""]`. -/
def splitOnChar (sep : Char) : List Char → List (List Char)
  | [] => [[]]
  | c :: rest =>
    let r := splitOnChar sep rest
    if c = sep then [] :: r
    else
      match r with
      | [] => [[c]]
      | h :: t => (c :: h) :: t

/-- JavaScript `s.split(sep)` for a one-character separator. -/
def jsSplit (sep : Char) (s : String) : List String :=
  (splitOnChar sep s.data).map String.mk

/-- Characters `encodeURIComponent` leaves unescaped. -/
def isUriUnreserved (c : Char) : Bool :=
  c.isAlphanum || c = '-' || c = '_' || c = '.' || c = '!' || c = '~' ||
    c = '*' || c = Char.ofNat 39 || c = '(' || c = ')'

/-- Upper-case hexadecimal digit for a value below 16. -/
def hexDigit (n : Nat) : Char :=
  if n < 10 then Char.ofNat (48 + n) else Char.ofNat (55 + n)

/-- UTF-8 code units of one character, as numbers. -/
def utf8Bytes (c : Char) : List Nat :=
  let n := c.toNat
  if n < 128 then [n]
  else if n < 2048 then [192 + n / 64, 128 + n % 64]
  else if n < 65536 then [224 + n / 4096, 128 + (n / 64) % 64, 128 + n % 64]
  else [240 + n / 262144, 128 + (n / 4096) % 64, 128 + (n / 64) % 64, 128 + n % 64]

/-- JavaScript `encodeURIComponent`: percent-encode every byte of every
character outside the unreserved set. -/
def encodeURIComponent (s : String) : String :=
  String.join (s.data.map fun c =>
    if isUriUnreserved c then String.mk [c]
    else String.join ((utf8Bytes c).map fun b =>
      String.mk ['%', hexDigit (b / 16), hexDigit (b % 16)]))

/-- `variantPrintId.match(/^([A-Z]{2})_/)`: the captured group when the
string starts with two upper-case ASCII letters followed by an
underscore, `none` otherwise. -/
def regexCapture (s : String) : Option String :=
  match s.data with
  | c1 :: c2 :: c3 :: _ =>
    if c1.isUpper && c2.isUpper && c3 == '_' then some (String.mk [c1, c2]) else none
  | _ => none

/-- `languageMatch ? languageMatch[1] : 'EN'` (index.ts lines 419-420). -/
def languageOf (printId : String) : String :=
  (regexCapture printId).getD "EN"

/-- Fixed upstream origin used for absolutising relative URLs. -/
def origin : String := "https://cards.fabtcg.com"

/-- Nested image-size object of a search/prints result entry. -/
structure ImageSizes where
  small : String
  normal : String
  large : String
deriving Repr, DecidableEq

/-- One raw entry of the JSON search payload (`data.results[i]`), with the
fields the mapper reads; optional wire fields are `Option`. -/
structure SearchEntry where
  card_id : String
  name : String
  display_name : String
  url : String
  image : ImageSizes
  pitch : Option String
  cost : Option String
  power : Option String
  defense : Option String
  text : Option String
  text_html : Option String
  typebox : Option String
deriving Repr, DecidableEq

/-- The `Card` record built by search_fab_cards (index.ts lines 18-31). -/
structure Card where
  id : String
  name : String
  displayName : String
  cardUrl : String
  imageUrl : String
  pitch : Option String
  cost : Option String
  power : Option String
  defense : Option String
  text : Option String
  textHtml : Option String
  typebox : Option String
deriving Repr, DecidableEq

/-- `data.results.map(card => ...)` of search_fab_cards
(index.ts lines 136-149). -/
def normalizeSearchResults (results : List SearchEntry) : List Card :=
  results.map fun card =>
    { id := card.card_id
      name := card.name
      displayName := card.display_name
      cardUrl := origin ++ card.url
      imageUrl := card.image.normal
      pitch := card.pitch
      cost := card.cost
      power := card.power
      defense := card.defense
      text := card.text
      textHtml := card.text_html
      typebox := card.typebox }

/-- Layout descriptor of a print (key plus human label). -/
structure LayoutDesc where
  key : String
  label : String
deriving Repr, DecidableEq

/-- One raw entry of the JSON prints payload. -/
structure PrintEntry where
  print_id : String
  card_id : String
  name : String
  display_name : String
  pitch : Option String
  image : ImageSizes
  layout : LayoutDesc
  finish_types : List LayoutDesc
deriving Repr, DecidableEq

/-- The `CardPrint` record built by get_fab_card_prints
(index.ts lines 34-51). -/
structure CardPrint where
  printId : String
  cardId : String
  name : String
  displayName : String
  pitch : Option String
  imageUrl : String
  imageUrlSmall : String
  imageUrlLarge : String
  layout : LayoutDesc
  finishTypes : List LayoutDesc
deriving Repr, DecidableEq

/-- `data.results.map(print => ...)` of get_fab_card_prints
(index.ts lines 230-241). -/
def normalizePrints (results : List PrintEntry) : List CardPrint :=
  results.map fun print =>
    { printId := print.print_id
      cardId := print.card_id
      name := print.name
      displayName := print.display_name
      pitch := print.pitch
      imageUrl := print.image.normal
      imageUrlSmall := print.image.small
      imageUrlLarge := print.image.large
      layout := print.layout
      finishTypes := print.finish_types }

/-- One element matching `[data-component-variant]` on the detail page,
with the text content of the four nested selectors the loop reads
(index.ts lines 413-418). -/
structure VariantBlock where
  printIdText : String
  nameText : String
  finishTypeText : String
  linkText : String
deriving Repr, DecidableEq

/-- One entry of the `variants` output sequence (index.ts lines 81-87). -/
structure VariantRef where
  printId : String
  language : String
  setName : String
  finishType : String
  url : String
deriving Repr, DecidableEq

/-- Abstract model of the parsed detail page: one field per selector read
performed by get_card_detail, holding the text (`.text()` result) or
attribute the selector would return.  `faceImgSrc` is the `src` attribute
(`none` when absent); `activeVariantPrintIdText` is `some t` when an
element carries the `data-component-variant-is-current` marker and the
adjacent print-id element has text `t`, and `none` when no element is
marked current (cheerio then returns the empty string). -/
structure DetailDoc where
  faceImgSrc : Option String
  activeVariantPrintIdText : Option String
  rulesTitleText : String
  rulesBlurbText : String
  rulesFooterText : String
  printTitleText : String
  printBlurbText : String
  printFooterText : String
  pitchCornerText : String
  rulesCornerFirstLastSpanText : String
  costCornerSpanText : String
  powerCornerSpanText : String
  rulesFooterFirstCornerLastSpanText : String
  defenseCornerSpanText : String
  rulesFooterLastCornerFirstSpanText : String
  productionFirstParagraphText : String
  productionLastParagraphLinkText : String
  variantBlocks : List VariantBlock
deriving Repr, DecidableEq

/-- The `CardDetail` record (index.ts lines 54-88).  Every text field is a
string at run time (missing page content degrades to the empty string);
only `rarity` can be genuinely absent, via array destructuring past the
end of the split. -/
structure CardDetail where
  cardId : String
  printId : String
  imageUrl : String
  enName : String
  enText : String
  enTypebox : String
  jaName : String
  jaText : String
  jaTypebox : String
  pitch : String
  cost : String
  power : String
  defense : String
  set : String
  rarity : Option String
  artist : String
  variants : List VariantRef
deriving Repr, DecidableEq

/-- The variants extraction loop (index.ts lines 405-431): push an entry
for each block whose print-id text and URL text are both truthy. -/
def extractVariants (blocks : List VariantBlock) : List VariantRef :=
  blocks.foldl
    (fun acc b =>
      if b.printIdText != "" && b.linkText != "" then
        acc ++ [{ printId := b.printIdText
                  language := languageOf b.printIdText
                  setName := b.nameText
                  finishType := b.finishTypeText
                  url := origin ++ b.linkText }]
      else acc)
    []

/-- `productionInfo.split('•').map(item => item.trim())` destructured as
`[set, rarity]` (index.ts lines 400-401). -/
def splitProductionInfo (s : String) : String × Option String :=
  let parts := (jsSplit '•' s).map jsTrim
  (parts.headD "", parts.get? 1)

/-- The detail extractor (index.ts lines 344-458): all selector reads on
the parsed document, assembled into the `CardDetail` record. -/
def getCardDetail (cardId : String) (printId : Option String) (doc : DetailDoc) :
    CardDetail :=
  let imageUrl := doc.faceImgSrc.getD ""
  let currentPrintId := doc.activeVariantPrintIdText.getD ""
  let enName := jsTrim doc.rulesTitleText
  let enText := jsTrim doc.rulesBlurbText
  let enTypebox := jsTrim doc.rulesFooterText
  let jaName := jsTrim doc.printTitleText
  let jaText := jsTrim doc.printBlurbText
  let jaTypebox := jsTrim doc.printFooterText
  let pitch := jsOr (stripNonDigits doc.pitchCornerText)
    (jsTrim doc.rulesCornerFirstLastSpanText)
  let cost := jsTrim doc.costCornerSpanText
  let power := jsOr (jsTrim doc.powerCornerSpanText)
    (jsTrim doc.rulesFooterFirstCornerLastSpanText)
  let defense := jsOr (jsTrim doc.defenseCornerSpanText)
    (jsTrim doc.rulesFooterLastCornerFirstSpanText)
  let setRarity := splitProductionInfo doc.productionFirstParagraphText
  let artist := jsTrim doc.productionLastParagraphLinkText
  let variants := extractVariants doc.variantBlocks
  { cardId := cardId
    printId := jsOr currentPrintId (printId.getD "")
    imageUrl := imageUrl
    enName := enName
    enText := enText
    enTypebox := enTypebox
    jaName := jaName
    jaText := jaText
    jaTypebox := jaTypebox
    pitch := pitch
    cost := cost
    power := power
    defense := defense
    set := setRarity.1
    rarity := setRarity.2
    artist := artist
    variants := variants }

/-! Serialisation of the payload records, modelling `JSON.stringify`
(field order and `undefined`-field omission; the `null, 2` pretty-printing
whitespace is not modelled). -/

/-- JSON string escaping for the characters the records can contain. -/
def jsonEscapeChar (c : Char) : String :=
  if c = '"' then "\\\""
  else if c = '\\' then "\\\\"
  else if c = '\n' then "\\n"
  else if c = '\r' then "\\r"
  else if c = '\t' then "\\t"
  else String.mk [c]

/-- A JSON string literal. -/
def jsonStr (s : String) : String :=
  "\"" ++ String.join (s.data.map jsonEscapeChar) ++ "\""

/-- One `key: value` member of a JSON object. -/
def jsonField (k v : String) : String :=
  jsonStr k ++ ": " ++ v

/-- A JSON object from its rendered members. -/
def jsonObj (fields : List String) : String :=
  "\x7b " ++ String.intercalate ", " fields ++ " \x7d"

/-- A JSON array from its rendered elements. -/
def jsonArr (items : List String) : String :=
  "[" ++ String.intercalate ", " items ++ "]"

/-- An optional string member: omitted (like `undefined` under
`JSON.stringify`) when absent. -/
def optStrField (k : String) (v : Option String) : Option String :=
  v.map fun s => jsonField k (jsonStr s)

/-- Serialise one `Card` record. -/
def renderCard (c : Card) : String :=
  jsonObj (List.filterMap id
    [some (jsonField "id" (jsonStr c.id)),
     some (jsonField "name" (jsonStr c.name)),
     some (jsonField "displayName" (jsonStr c.displayName)),
     some (jsonField "cardUrl" (jsonStr c.cardUrl)),
     some (jsonField "imageUrl" (jsonStr c.imageUrl)),
     optStrField "pitch" c.pitch,
     optStrField "cost" c.cost,
     optStrField "power" c.power,
     optStrField "defense" c.defense,
     optStrField "text" c.text,
     optStrField "textHtml" c.textHtml,
     optStrField "typebox" c.typebox])

/-- Serialise the search payload, as `JSON.stringify(cards, null, 2)`. -/
def renderCards (cs : List Card) : String :=
  jsonArr (cs.map renderCard)

/-- Serialise a layout / finish-type descriptor. -/
def renderLayout (l : LayoutDesc) : String :=
  jsonObj [jsonField "key" (jsonStr l.key), jsonField "label" (jsonStr l.label)]

/-- Serialise one `CardPrint` record. -/
def renderCardPrint (p : CardPrint) : String :=
  jsonObj (List.filterMap id
    [some (jsonField "printId" (jsonStr p.printId)),
     some (jsonField "cardId" (jsonStr p.cardId)),
     some (jsonField "name" (jsonStr p.name)),
     some (jsonField "displayName" (jsonStr p.displayName)),
     optStrField "pitch" p.pitch,
     some (jsonField "imageUrl" (jsonStr p.imageUrl)),
     some (jsonField "imageUrlSmall" (jsonStr p.imageUrlSmall)),
     some (jsonField "imageUrlLarge" (jsonStr p.imageUrlLarge)),
     some (jsonField "layout" (renderLayout p.layout)),
     some (jsonField "finishTypes" (jsonArr (p.finishTypes.map renderLayout)))])

/-- Serialise the prints payload. -/
def renderCardPrints (ps : List CardPrint) : String :=
  jsonArr (ps.map renderCardPrint)

/-- Serialise one variant entry of a `CardDetail`. -/
def renderVariantRef (v : VariantRef) : String :=
  jsonObj [jsonField "printId" (jsonStr v.printId),
    jsonField "language" (jsonStr v.language),
    jsonField "setName" (jsonStr v.setName),
    jsonField "finishType" (jsonStr v.finishType),
    jsonField "url" (jsonStr v.url)]

/-- Serialise a `CardDetail` record. -/
def renderCardDetail (d : CardDetail) : String :=
  jsonObj (List.filterMap id
    [some (jsonField "cardId" (jsonStr d.cardId)),
     some (jsonField "printId" (jsonStr d.printId)),
     some (jsonField "imageUrl" (jsonStr d.imageUrl)),
     some (jsonField "enName" (jsonStr d.enName)),
     some (jsonField "enText" (jsonStr d.enText)),
     some (jsonField "enTypebox" (jsonStr d.enTypebox)),
     some (jsonField "jaName" (jsonStr d.jaName)),
     some (jsonField "jaText" (jsonStr d.jaText)),
     some (jsonField "jaTypebox" (jsonStr d.jaTypebox)),
     some (jsonField "pitch" (jsonStr d.pitch)),
     some (jsonField "cost" (jsonStr d.cost)),
     some (jsonField "power" (jsonStr d.power)),
     some (jsonField "defense" (jsonStr d.defense)),
     some (jsonField "set" (jsonStr d.set)),
     optStrField "rarity" d.rarity,
     some (jsonField "artist" (jsonStr d.artist)),
     some (jsonField "variants" (jsonArr (d.variants.map renderVariantRef)))])

/-! The tool response envelope and the catch-all error handling. -/

/-- One content item of a tool response (`type` is the discriminator the
source always sets to the string "text"). -/
structure ToolContent where
  ty : String
  text : String
deriving Repr, DecidableEq

/-- The value each tool handler returns: always a successful envelope,
never a thrown error or a transport fault. -/
structure ToolResponse where
  content : List ToolContent
deriving Repr, DecidableEq

/-- A successful envelope holding one text content item. -/
def toolOk (txt : String) : ToolResponse :=
  { content := [{ ty := "text", text := txt }] }

/-- Error text of search_fab_cards (index.ts line 185). -/
def searchErrorText (m : String) : String :=
  "エラー: カードの検索中に問題が発生しました - " ++ m

/-- Error text of get_fab_card_prints (index.ts line 277). -/
def printsErrorText (m : String) : String :=
  "エラー: カードプリント情報の取得中に問題が発生しました - " ++ m

/-- Error text of get_card_detail (index.ts line 501). -/
def detailErrorText (m : String) : String :=
  "エラー: カード詳細情報の取得中に問題が発生しました - " ++ m

/-- search_fab_cards after its upstream round trip: the try/catch wraps
the mapped payload, or the error message, into the same envelope shape
(index.ts lines 111-188).  The upstream outcome is the `Except` argument:
`error m` covers every raised error (network failure, unreachable host,
missing results field), with `m` the error message. -/
def searchToolResult (r : Except String (List SearchEntry)) : ToolResponse :=
  match r with
  | .ok results => toolOk (renderCards (normalizeSearchResults results))
  | .error m => toolOk (searchErrorText m)

/-- get_fab_card_prints after its upstream round trip
(index.ts lines 205-281). -/
def printsToolResult (r : Except String (List PrintEntry)) : ToolResponse :=
  match r with
  | .ok results => toolOk (renderCardPrints (normalizePrints results))
  | .error m => toolOk (printsErrorText m)

/-- get_card_detail after its upstream round trip
(index.ts lines 311-505). -/
def detailToolResult (cardId : String) (printId : Option String)
    (r : Except String DetailDoc) : ToolResponse :=
  match r with
  | .ok doc => toolOk (renderCardDetail (getCardDetail cardId printId doc))
  | .error m => toolOk (detailErrorText m)

/-! Input validation: the zod schemas and the upstream request URLs. -/

/-- A JSON argument value as the tool framework hands it to zod. -/
inductive JValue where
  | jstr : String → JValue
  | jnum : Int → JValue
  | jbool : Bool → JValue
  | jnull : JValue
deriving Repr, DecidableEq

/-- `z.string()` applied to an argument that may be missing: accepts any
string value, with no length or non-emptiness constraint; rejects a
missing or non-string value. -/
def zStringParse : Option JValue → Option String
  | some (JValue.jstr s) => some s
  | _ => none

/-- `z.string().optional()`: a missing argument parses to `none`; a
string value parses to `some`; a non-string value is rejected. -/
def zOptionalStringParse : Option JValue → Option (Option String)
  | none => some none
  | some (JValue.jstr s) => some (some s)
  | _ => none

/-- The search endpoint URL (index.ts line 119). -/
def searchRequestUrl (query : String) : String :=
  "https://cards.fabtcg.com/api/search/v1/cards/?q=" ++ encodeURIComponent query

/-- The prints endpoint URL (index.ts line 213). -/
def printsRequestUrl (cardId : String) : String :=
  "https://cards.fabtcg.com/api/fab/v1/prints/?card_id=" ++
    encodeURIComponent cardId

/-- The detail page URL (index.ts lines 320-328): the `printId` segment is
appended only when the argument is truthy (present and non-empty). -/
def detailRequestUrl (cardId : String) (printId : Option String) : String :=
  if printId.getD "" != "" then
    "https://cards.fabtcg.com/card/" ++ encodeURIComponent cardId ++ "/" ++
      encodeURIComponent (printId.getD "") ++ "/"
  else
    "https://cards.fabtcg.com/card/" ++ encodeURIComponent cardId ++ "/"

/-- The upstream GET the search tool attempts for a given raw argument:
`none` when the schema rejects the call (the handler never runs), `some
url` when the handler runs and immediately issues the request. -/
def searchToolUpstreamRequest (queryArg : Option JValue) : Option String :=
  (zStringParse queryArg).map searchRequestUrl

/-- The upstream GET the prints tool attempts for a given raw argument. -/
def printsToolUpstreamRequest (cardIdArg : Option JValue) : Option String :=
  (zStringParse cardIdArg).map printsRequestUrl

/-- The upstream GET the detail tool attempts for given raw arguments. -/
def detailToolUpstreamRequest (cardIdArg printIdArg : Option JValue) :
    Option String :=
  match zStringParse cardIdArg, zOptionalStringParse printIdArg with
  | some cid, some pid => some (detailRequestUrl cid pid)
  | _, _ => none

/-- First non-empty string of an ordered candidate list, empty when all
candidates are empty: the specification's fallback-chain semantics. -/
def firstNonEmpty (l : List String) : String :=
  (l.find? fun s => s != "").getD ""

/-- A detail document on which every selector comes back empty: no face
image, no active-variant marker, no tab content, no corners, no
production details, no variant blocks. -/
def emptyDoc : DetailDoc :=
  { faceImgSrc := none
    activeVariantPrintIdText := none
    rulesTitleText := ""
    rulesBlurbText := ""
    rulesFooterText := ""
    printTitleText := ""
    printBlurbText := ""
    printFooterText := ""
    pitchCornerText := ""
    rulesCornerFirstLastSpanText := ""
    costCornerSpanText := ""
    powerCornerSpanText := ""
    rulesFooterFirstCornerLastSpanText := ""
    defenseCornerSpanText := ""
    rulesFooterLastCornerFirstSpanText := ""
    productionFirstParagraphText := ""
    productionLastParagraphLinkText := ""
    variantBlocks := [] }

/-- A document whose variant list has an entry marked current whose
print-id element text is empty. -/
def activeEmptyTextDoc : DetailDoc :=
  { emptyDoc with activeVariantPrintIdText := some "" }

/-- A document whose variant list has an entry marked current with
print-id text "JA_WTR001". -/
def activeJaDoc : DetailDoc :=
  { emptyDoc with activeVariantPrintIdText := some "JA_WTR001" }

/-- One concrete search-payload entry. -/
def sampleEntry : SearchEntry :=
  { card_id := "WTR001"
    name := "Heart of Fyendal"
    display_name := "Heart of Fyendal"
    url := "/card/WTR001"
    image := { small := "https://img/s.png", normal := "https://img/n.png",
               large := "https://img/l.png" }
    pitch := some "3"
    cost := none
    power := none
    defense := none
    text := none
    text_html := none
    typebox := none }

end FabCardDb

namespace FabCardDb

example : languageOf "JA_WTR001" = "JA" := by decide
example : languageOf "WTR001" = "EN" := by decide
example : jsSplit '•' "a • b" = ["a ", " b"] := by decide
example : jsTrim " Rare " = "Rare" := by decide
example : stripNonDigits "ピッチ: 2" = "2" := by decide
example : encodeURIComponent "" = "" := by decide

/-- Unfolding one candidate of the fallback chain. -/
theorem firstNonEmpty_cons (a : String) (t : List String) :
    firstNonEmpty (a :: t) = if a = "" then firstNonEmpty t else a := by
  by_cases ha : a = ""
  · have h1 : (a != "") = false := by simp [ha]
    simp [firstNonEmpty, List.find?, h1, ha]
  · have h1 : (a != "") = true := bne_iff_ne.mpr ha
    simp [firstNonEmpty, List.find?, h1, ha]

/-- JavaScript `a || b` on strings is the first non-empty of the
two-candidate list. -/
theorem jsOr_eq_firstNonEmpty (a b : String) :
    jsOr a b = firstNonEmpty [a, b] := by
  rw [firstNonEmpty_cons, firstNonEmpty_cons]
  by_cases ha : a = "" <;> by_cases hb : b = "" <;>
    simp [jsOr, firstNonEmpty, ha, hb]

/-- A single-candidate chain yields that candidate (empty included). -/
theorem firstNonEmpty_single (a : String) : firstNonEmpty [a] = a := by
  rw [firstNonEmpty_cons]
  by_cases ha : a = "" <;> simp [firstNonEmpty, ha]

/-- An all-empty candidate list yields the empty string. -/
theorem firstNonEmpty_all_empty (l : List String) (h : ∀ s ∈ l, s = "") :
    firstNonEmpty l = "" := by
  induction l with
  | nil => rfl
  | cons a t ih =>
    have ha : a = "" := h a (by simp)
    have ht : ∀ s ∈ t, s = "" := fun s hs => h s (by simp [hs])
    rw [firstNonEmpty_cons, if_pos ha]
    exact ih ht

/-- Folding a conditional push over a list from any accumulator appends
the filtered-and-mapped elements in order. -/
theorem foldl_push_filter_map {α β : Type} (p : α → Bool) (f : α → β) :
    ∀ (l : List α) (acc : List β),
      l.foldl (fun a b => if p b then a ++ [f b] else a) acc =
        acc ++ (l.filter p).map f := by
  intro l
  induction l with
  | nil => intro acc; simp
  | cons x t ih =>
    intro acc
    by_cases hx : p x <;> simp [List.foldl, hx, ih, List.filter]

/-- Splitting on a character that does not occur yields the whole list as
the only piece. -/
theorem splitOnChar_not_mem (sep : Char) :
    ∀ l : List Char, sep ∉ l → splitOnChar sep l = [l] := by
  intro l
  induction l with
  | nil => intro _; rfl
  | cons c t ih =>
    intro h
    have hc : ¬c = sep := fun hc => h (by simp [hc])
    have ht : sep ∉ t := fun hm => h (by simp [hm])
    simp [splitOnChar, hc, ih ht]

/-- C1: a variant block of the fetched detail page contributes an entry to
the output `variants` sequence exactly when both its print-id text and
its URL text are non-empty (set name and finish label play no role in the
filter), the entries appear in document order, and each entry's URL is
the block's URL text prefixed with the fixed origin. -/
theorem getCardDetail_variants_filter (cardId : String) (printId : Option String)
    (doc : DetailDoc) :
    (getCardDetail cardId printId doc).variants =
      (doc.variantBlocks.filter fun b => b.printIdText != "" && b.linkText != "").map
        fun b =>
          { printId := b.printIdText
            language := languageOf b.printIdText
            setName := b.nameText
            finishType := b.finishTypeText
            url := "https://cards.fabtcg.com" ++ b.linkText } := by
  have h := foldl_push_filter_map
    (fun b : VariantBlock => b.printIdText != "" && b.linkText != "")
    (fun b : VariantBlock =>
      ({ printId := b.printIdText
         language := languageOf b.printIdText
         setName := b.nameText
         finishType := b.finishTypeText
         url := origin ++ b.linkText } : VariantRef))
    doc.variantBlocks []
  simpa [getCardDetail, extractVariants, origin] using h

/-- C2: the derived language code is the two-upper-case-letter prefix when
the print identifier starts with exactly two upper-case ASCII letters
followed by an underscore, and "EN" otherwise; in particular "JA_WTR001"
yields "JA" and "WTR001" yields "EN". -/
theorem languageOf_prefix_rule (s : String) :
    ((∃ c1 c2 rest, s.data = c1 :: c2 :: '_' :: rest ∧
        c1.isUpper = true ∧ c2.isUpper = true) →
      languageOf s = String.mk (s.data.take 2)) ∧
    ((¬∃ c1 c2 rest, s.data = c1 :: c2 :: '_' :: rest ∧
        c1.isUpper = true ∧ c2.isUpper = true) →
      languageOf s = "EN") ∧
    languageOf "JA_WTR001" = "JA" ∧ languageOf "WTR001" = "EN" := by
  refine ⟨?_, ?_, by decide, by decide⟩
  · rintro ⟨c1, c2, rest, hdata, h1, h2⟩
    simp [languageOf, regexCapture, hdata, h1, h2]
  · intro h
    unfold languageOf regexCapture
    cases hd : s.data with
    | nil => simp
    | cons c1 t1 =>
      cases t1 with
      | nil => simp
      | cons c2 t2 =>
        cases t2 with
        | nil => simp
        | cons c3 rest =>
          by_cases u1 : c1.isUpper
          · by_cases u2 : c2.isUpper
            · by_cases u3 : c3 = '_'
              · subst u3
                exact absurd ⟨c1, c2, rest, hd, u1, u2⟩ h
              · simp [u1, u2, u3]
            · simp [u2]
          · simp [u1]

/-- Witness for C2 at the two concrete print identifiers of the claim. -/
theorem languageOf_prefix_rule_witness :
    languageOf "JA_WTR001" = String.mk ("JA_WTR001".data.take 2) ∧
    languageOf "WTR001" = "EN" :=
  ⟨(languageOf_prefix_rule "JA_WTR001").1
      ⟨'J', 'A', "WTR001".data, by decide, by decide, by decide⟩,
   (languageOf_prefix_rule "WTR001").2.2.2⟩

/-- C3 as amended: the resolved print identifier is the active-marked
entry's text when that text is non-empty; whenever the extracted active
text is empty (no active marker, or an active entry with empty text) it
falls back to the caller-supplied printId, defaulting to the empty
string. -/
theorem getCardDetail_printId_resolution (cardId : String) (printId : Option String)
    (doc : DetailDoc) :
    (∀ t, doc.activeVariantPrintIdText = some t → t ≠ "" →
      (getCardDetail cardId printId doc).printId = t) ∧
    (doc.activeVariantPrintIdText.getD "" = "" →
      (getCardDetail cardId printId doc).printId = printId.getD "") := by
  constructor
  · intro t ht hne
    show jsOr (doc.activeVariantPrintIdText.getD "") (printId.getD "") = t
    simp [ht, jsOr, hne]
  · intro h
    show jsOr (doc.activeVariantPrintIdText.getD "") (printId.getD "") = printId.getD ""
    simp [h, jsOr]

/-- Counterexample to C3 as stated: on a page whose variant list has an
entry marked current with empty print-id text, a caller-supplied printId
wins over the (empty) text of the active-marked entry. -/
theorem getCardDetail_printId_active_empty_counterexample :
    activeEmptyTextDoc.activeVariantPrintIdText = some "" ∧
    (getCardDetail "WTR001" (some "JA_WTR001") activeEmptyTextDoc).printId =
      "JA_WTR001" ∧
    ("JA_WTR001" : String) ≠ "" := by
  refine ⟨rfl, by decide, by decide⟩

/-- Witness for the amended C3: a non-empty active entry wins; with no
active marker and no caller printId the result is the empty string. -/
theorem getCardDetail_printId_resolution_witness :
    (getCardDetail "WTR001" none activeJaDoc).printId = "JA_WTR001" ∧
    (getCardDetail "WTR001" none emptyDoc).printId = "" :=
  ⟨(getCardDetail_printId_resolution "WTR001" none activeJaDoc).1
      "JA_WTR001" rfl (by decide),
   (getCardDetail_printId_resolution "WTR001" none emptyDoc).2 rfl⟩

/-- C10: the `cardId` field of the returned CardDetail is the
caller-supplied identifier verbatim, for every fetched document. -/
theorem getCardDetail_cardId_echoed (cardId : String) (printId : Option String)
    (doc : DetailDoc) :
    (getCardDetail cardId printId doc).cardId = cardId := rfl

/-- C4: each of pitch, cost, power, defense is the first non-empty result
of its ordered candidate chain — the labelled-corner primary selector
(non-digits stripped for pitch, trimmed otherwise) followed by the
attribute's positional fallback selectors (cost has none) — and an
all-empty chain yields the empty (absent) value. -/
theorem getCardDetail_attribute_fallbacks (cardId : String) (printId : Option String)
    (doc : DetailDoc) :
    (getCardDetail cardId printId doc).pitch =
      firstNonEmpty [stripNonDigits doc.pitchCornerText,
        jsTrim doc.rulesCornerFirstLastSpanText] ∧
    (getCardDetail cardId printId doc).cost =
      firstNonEmpty [jsTrim doc.costCornerSpanText] ∧
    (getCardDetail cardId printId doc).power =
      firstNonEmpty [jsTrim doc.powerCornerSpanText,
        jsTrim doc.rulesFooterFirstCornerLastSpanText] ∧
    (getCardDetail cardId printId doc).defense =
      firstNonEmpty [jsTrim doc.defenseCornerSpanText,
        jsTrim doc.rulesFooterLastCornerFirstSpanText] ∧
    (∀ l : List String, (∀ s ∈ l, s = "") → firstNonEmpty l = "") :=
  ⟨jsOr_eq_firstNonEmpty _ _, (firstNonEmpty_single _).symm,
   jsOr_eq_firstNonEmpty _ _, jsOr_eq_firstNonEmpty _ _,
   firstNonEmpty_all_empty⟩

/-- Witness for C4 on the all-empty document. -/
theorem getCardDetail_attribute_fallbacks_witness :
    (getCardDetail "WTR001" none emptyDoc).pitch =
      firstNonEmpty [stripNonDigits emptyDoc.pitchCornerText,
        jsTrim emptyDoc.rulesCornerFirstLastSpanText] ∧
    firstNonEmpty ["", ""] = "" :=
  ⟨(getCardDetail_attribute_fallbacks "WTR001" none emptyDoc).1,
   (getCardDetail_attribute_fallbacks "WTR001" none emptyDoc).2.2.2.2
      ["", ""] (by decide)⟩

/-- C5: extraction never raises on a fetched (parsed) document — the
detail tool wraps every extracted record in the successful envelope — and
a document with no rules-tab content yields an empty `enName` and an
empty (absent) `enText`, without blocking the other rules. -/
theorem getCardDetail_missing_rules_tab (cardId : String) (printId : Option String)
    (doc : DetailDoc) (hTitle : doc.rulesTitleText = "")
    (hBlurb : doc.rulesBlurbText = "") :
    detailToolResult cardId printId (Except.ok doc) =
      toolOk (renderCardDetail (getCardDetail cardId printId doc)) ∧
    (getCardDetail cardId printId doc).enName = "" ∧
    (getCardDetail cardId printId doc).enText = "" := by
  refine ⟨rfl, ?_, ?_⟩
  · show jsTrim doc.rulesTitleText = ""
    rw [hTitle]; decide
  · show jsTrim doc.rulesBlurbText = ""
    rw [hBlurb]; decide

/-- Witness for C5 on the all-empty document. -/
theorem getCardDetail_missing_rules_tab_witness :
    detailToolResult "WTR001" none (Except.ok emptyDoc) =
      toolOk (renderCardDetail (getCardDetail "WTR001" none emptyDoc)) ∧
    (getCardDetail "WTR001" none emptyDoc).enName = "" ∧
    (getCardDetail "WTR001" none emptyDoc).enText = "" :=
  getCardDetail_missing_rules_tab "WTR001" none emptyDoc rfl rfl

/-- C6: the publication-info text is split on the bullet character into
trimmed parts (set name, rarity): "Welcome to Rathe • Rare" gives set
"Welcome to Rathe" and rarity "Rare"; without the separator the rarity is
absent and the set name is the whole trimmed string; and the CardDetail's
`set`/`rarity` fields come from exactly this split. -/
theorem splitProductionInfo_spec :
    splitProductionInfo "Welcome to Rathe • Rare" =
      ("Welcome to Rathe", some "Rare") ∧
    (∀ s : String, '•' ∉ s.data → splitProductionInfo s = (jsTrim s, none)) ∧
    (∀ (cardId : String) (printId : Option String) (doc : DetailDoc),
      (getCardDetail cardId printId doc).set =
        (splitProductionInfo doc.productionFirstParagraphText).1 ∧
      (getCardDetail cardId printId doc).rarity =
        (splitProductionInfo doc.productionFirstParagraphText).2) := by
  refine ⟨by decide, ?_, fun cardId printId doc => ⟨rfl, rfl⟩⟩
  intro s h
  unfold splitProductionInfo jsSplit
  rw [splitOnChar_not_mem '•' s.data h]
  rfl

/-- Witness for C6 on a publication text with no separator. -/
theorem splitProductionInfo_spec_witness :
    splitProductionInfo "Welcome to Rathe" = (jsTrim "Welcome to Rathe", none) :=
  splitProductionInfo_spec.2.1 "Welcome to Rathe" (by decide)

/-- Counterexample to C7 as stated: with the empty string as the required
identifier, each tool's schema accepts the call and the upstream request
is attempted (the request function yields a URL instead of rejecting). -/
theorem emptyIdentifier_accepted_counterexample :
    searchToolUpstreamRequest (some (JValue.jstr "")) =
      some "https://cards.fabtcg.com/api/search/v1/cards/?q=" ∧
    printsToolUpstreamRequest (some (JValue.jstr "")) =
      some "https://cards.fabtcg.com/api/fab/v1/prints/?card_id=" ∧
    detailToolUpstreamRequest (some (JValue.jstr "")) none =
      some "https://cards.fabtcg.com/card//" ∧
    searchToolUpstreamRequest (some (JValue.jstr "")) ≠ none := by
  exact ⟨by decide, by decide, by decide, by decide⟩

/-- C7 as amended: the z.string() schemas accept every string including
the empty string, so an empty required identifier is not rejected — the
handler runs and attempts the upstream request with the empty identifier
encoded into the URL. -/
theorem emptyIdentifier_request_attempted (q : String) :
    zStringParse (some (JValue.jstr q)) = some q ∧
    searchToolUpstreamRequest (some (JValue.jstr q)) = some (searchRequestUrl q) ∧
    printsToolUpstreamRequest (some (JValue.jstr q)) = some (printsRequestUrl q) ∧
    detailToolUpstreamRequest (some (JValue.jstr q)) none =
      some (detailRequestUrl q none) ∧
    searchRequestUrl "" = "https://cards.fabtcg.com/api/search/v1/cards/?q=" ∧
    detailRequestUrl "" none = "https://cards.fabtcg.com/card//" :=
  ⟨rfl, rfl, rfl, rfl, by decide, by decide⟩

/-- C8: every error raised by a tool's pipeline is caught and turned into
a successful envelope whose single text content carries the tool's
human-readable message followed by the error message; on every pipeline
outcome the handler returns a plain envelope, never a thrown fault. -/
theorem toolResult_error_envelope (m cardId : String) (printId : Option String) :
    searchToolResult (Except.error m) =
      toolOk ("エラー: カードの検索中に問題が発生しました - " ++ m) ∧
    printsToolResult (Except.error m) =
      toolOk ("エラー: カードプリント情報の取得中に問題が発生しました - " ++ m) ∧
    detailToolResult cardId printId (Except.error m) =
      toolOk ("エラー: カード詳細情報の取得中に問題が発生しました - " ++ m) ∧
    (∀ r : Except String (List SearchEntry), ∃ txt, searchToolResult r = toolOk txt) ∧
    (∀ r : Except String (List PrintEntry), ∃ txt, printsToolResult r = toolOk txt) ∧
    (∀ r : Except String DetailDoc, ∃ txt,
      detailToolResult cardId printId r = toolOk txt) := by
  refine ⟨rfl, rfl, rfl, ?_, ?_, ?_⟩ <;> intro r <;> cases r <;> exact ⟨_, rfl⟩

/-- C9: the search normalizer maps each of the N payload entries to one
CardSummary in the same position, with the image URL taken from the
entry's nested normal-size field and the card URL equal to the fixed
origin prefixed to the entry's relative URL. -/
theorem normalizeSearchResults_shape (entries : List SearchEntry) :
    (normalizeSearchResults entries).length = entries.length ∧
    ∀ (i : Nat) (e : SearchEntry), entries[i]? = some e →
      ∃ c : Card, (normalizeSearchResults entries)[i]? = some c ∧
        c.imageUrl = e.image.normal ∧
        c.cardUrl = "https://cards.fabtcg.com" ++ e.url := by
  constructor
  · simp [normalizeSearchResults]
  · intro i e he
    refine ⟨{ id := e.card_id
              name := e.name
              displayName := e.display_name
              cardUrl := origin ++ e.url
              imageUrl := e.image.normal
              pitch := e.pitch
              cost := e.cost
              power := e.power
              defense := e.defense
              text := e.text
              textHtml := e.text_html
              typebox := e.typebox }, ?_, rfl, rfl⟩
    unfold normalizeSearchResults
    rw [List.getElem?_map, he]
    rfl

/-- Witness for C9 on a one-entry payload. -/
theorem normalizeSearchResults_shape_witness :
    ∃ c : Card, (normalizeSearchResults [sampleEntry])[0]? = some c ∧
      c.imageUrl = sampleEntry.image.normal ∧
      c.cardUrl = "https://cards.fabtcg.com" ++ sampleEntry.url :=
  (normalizeSearchResults_shape [sampleEntry]).2 0 sampleEntry rfl

end FabCardDb
